import Mathlib

/-!
Shallow embedding of `src/flashscore.py` (tvguideone/logo), a crawl-and-download
pipeline: pure string helpers (`normalize_filename`, `sanitize_folder_name`,
`is_png_image`), the cascading region-name extractor
(`extract_region_name_from_html`), the stateful downloader (`download_image`),
and the orchestrator (`main`).

Python strings are modelled as Lean `String` (a list of characters); string
primitives (`lower`, `strip`, `endswith`, slicing, `re.sub`, `str.title`,
`os.path.join`) are embedded as executable Lean functions faithful to their
behaviour on the ASCII range.  Mutable process state (the `stats` dict, the
filesystem, console output) is threaded explicitly through a `World` record;
the HTTP layer is an oracle parameter returning `Except` (an `error` result
models a raised exception / non-2xx status via `raise_for_status`).
-/

namespace Flashscore

/-- Python whitespace (`\s` in `re`, `str.strip`) restricted to the ASCII
characters an HTTP page can reasonably contain. -/
def pyIsSpace (c : Char) : Bool :=
  c = ' ' || c = '\t' || c = '\n' || c = '\x0d' || c = '\x0b' || c = '\x0c'

/-- Python `str.lower()` (ASCII model): lower-case each character. -/
def pyLower (s : String) : String := String.mk (s.data.map Char.toLower)

/-- Python `str.strip()` (ASCII model): drop whitespace from both ends. -/
def pyStrip (s : String) : String :=
  String.mk (((s.data.dropWhile pyIsSpace).reverse.dropWhile pyIsSpace).reverse)

/-- Python `s.endswith(suffix)`. -/
def pyEndswith (s suffix : String) : Bool := suffix.data.isSuffixOf s.data

/-- Python slicing `s[:50]`, used for diagnostic-message truncation. -/
def truncate50 (s : String) : String := String.mk (s.data.take 50)

/-- Python `s.replace(old, new)` for single-character `old`/`new`. -/
def pyReplaceChar (old new : Char) (s : String) : String :=
  String.mk (s.data.map fun c => if c = old then new else c)

/-- State machine behind Python `str.title()` (ASCII model): the first letter
of each alphabetic run is upper-cased, the rest lower-cased. -/
def pyTitleAux (prevAlpha : Bool) : List Char → List Char
  | [] => []
  | c :: rest =>
    if c.isAlpha then
      (if prevAlpha then Char.toLower c else Char.toUpper c) :: pyTitleAux true rest
    else
      c :: pyTitleAux false rest

/-- Python `str.title()` (ASCII model). -/
def pyTitle (s : String) : String := String.mk (pyTitleAux false s.data)

/-- Split a character list on `'/'` (Python `s.split('/')`). -/
def splitSlash : List Char → List (List Char)
  | [] => [[]]
  | c :: t =>
    match splitSlash t with
    | [] => [[]]
    | h :: r => if c = '/' then [] :: h :: r else (c :: h) :: r

/-- Python `url.split('/')[-1]`: the final path segment. -/
def lastSegment (s : String) : String := String.mk ((splitSlash s.data).getLastD [])

/-- Python `needle in hay` on strings: substring test. -/
def isSubstr : List Char → List Char → Bool
  | n, [] => n.isEmpty
  | n, c :: t => n.isPrefixOf (c :: t) || isSubstr n t

/-- Embedding of `os.path.join` (POSIX model, two arguments, as used by the script). -/
def osPathJoin (a b : String) : String :=
  if "/".data.isPrefixOf b.data then b
  else if a = "" || "/".data.isSuffixOf a.data then a ++ b
  else a ++ "/" ++ b

/-- Constant `OUTPUT_DIR = "./output"` (src/flashscore.py line 13). -/
def OUTPUT_DIR : String := "./output"

/-- Constant `base_urls` (src/flashscore.py lines 25-28). -/
def base_urls : List String :=
  ["https://www.flashscore.com/football/africa",
   "https://www.flashscore.com/football/asia"]

/-- State machine embedding of `re.sub(r'\s+', '-', name)`: each maximal run
of whitespace characters is replaced by a single hyphen (the flag records
whether we are inside a whitespace run already replaced). -/
def collapseWs (inRun : Bool) : List Char → List Char
  | [] => []
  | c :: rest =>
    if pyIsSpace c then
      (if inRun then collapseWs true rest else '-' :: collapseWs true rest)
    else
      c :: collapseWs false rest

/-- Embedding of `re.sub(r' ', '-', name)` (src line 38): replace each space by a hyphen. -/
def subSpaceChar (c : Char) : Char := if c = ' ' then '-' else c

/-- Function `normalize_filename` (src/flashscore.py lines 34-39): lower-case, replace
whitespace runs by a hyphen, then replace remaining spaces by hyphens. -/
def normalize_filename (name : String) : String :=
  String.mk ((collapseWs false (name.data.map Char.toLower)).map subSpaceChar)

/-- The character class `[\\/:*?"<>|]` of src line 44. -/
def isForbidden (c : Char) : Bool :=
  c = '\\' || c = '/' || c = ':' || c = '*' || c = '?' || c = '"' ||
  c = '<' || c = '>' || c = '|'

/-- Function `sanitize_folder_name` (src/flashscore.py lines 41-45):
`re.sub(r'[\\/:*?"<>|]', '-', name)`. -/
def sanitize_folder_name (name : String) : String :=
  String.mk (name.data.map fun c => if isForbidden c then '-' else c)

/-- Function `is_png_image` (src/flashscore.py lines 47-50):
`url.lower().endswith('.png')`. -/
def is_png_image (url : String) : Bool := pyEndswith (pyLower url) ".png"

/-! ### The breadcrumb regex of `extract_region_name_from_html`

Pattern (src line 59):
`</span>\s*<a\s+class="breadcrumb__link"\s+href="[^"]+">([^<]+)</a>`.
Every quantified subpattern is followed by a character it cannot match
(`\s*` by `<`, `\s+` by a letter, `[^"]+` by `"`, `[^<]+` by `<`), so greedy
maximal munch without backtracking is exactly Python's semantics, and
`re.search` is the first start position (scanned left to right) at which the
deterministic match succeeds. -/

/-- Match a literal character-list prefix, returning the rest of the input. -/
def dropLit : List Char → List Char → Option (List Char)
  | [], s => some s
  | _ :: _, [] => none
  | c :: cs, d :: ds => if c = d then dropLit cs ds else none

/-- Deterministic tail of the breadcrumb pattern, entered just after a
`</span>` literal has been consumed; returns the `([^<]+)` capture. -/
def matchAfterSpan (s : List Char) : Option (List Char) :=
  match dropLit "<a".data (s.dropWhile pyIsSpace) with
  | none => none
  | some s1 =>
    if (s1.takeWhile pyIsSpace).isEmpty then none
    else
      match dropLit "class=\"breadcrumb__link\"".data (s1.dropWhile pyIsSpace) with
      | none => none
      | some s2 =>
        if (s2.takeWhile pyIsSpace).isEmpty then none
        else
          match dropLit "href=\"".data (s2.dropWhile pyIsSpace) with
          | none => none
          | some s3 =>
            if (s3.takeWhile (fun c => c ≠ '"')).isEmpty then none
            else
              match dropLit "\">".data (s3.dropWhile (fun c => c ≠ '"')) with
              | none => none
              | some s4 =>
                if (s4.takeWhile (fun c => c ≠ '<')).isEmpty then none
                else
                  match dropLit "</a>".data (s4.dropWhile (fun c => c ≠ '<')) with
                  | none => none
                  | some _ => some (s4.takeWhile (fun c => c ≠ '<'))

/-- Embedding of `re.search` for the breadcrumb pattern: try each start position left to
right; the pattern must begin with the literal `</span>`. -/
def regexSearchSpan : List Char → Option (List Char)
  | [] => none
  | c :: rest =>
    match dropLit "</span>".data (c :: rest) with
    | some s =>
      match matchAfterSpan s with
      | some cap => some cap
      | none => regexSearchSpan rest
    | none => regexSearchSpan rest

/-- Embedding of `pattern.search(html_str)` returning `match.group(1)` (src lines 59-63). -/
def regexCapture (html : String) : Option String :=
  (regexSearchSpan html.data).map String.mk

/-- A parsed HTML tag as far as the script inspects one: its name, its
`class` attribute list (`get('class', [])`) and its text. -/
structure Tag where
  name : String
  classes : List String
  text : String
deriving DecidableEq

/-- Abstraction of the BeautifulSoup document the extractor receives:
`html` is `str(soup)`; `spanSiblings` lists, for each `<span>` in
`soup.find_all('span')` order, its `next_sibling` (`none` when absent or not
a tag); `breadcrumbLinks` lists the texts of `soup.select('a.breadcrumb__link')`
in document order. -/
structure Soup where
  html : String
  spanSiblings : List (Option Tag)
  breadcrumbLinks : List String
deriving DecidableEq

/-- First fallback of the extractor (src lines 67-73): walk the spans and
return the text of the first next-sibling that is an `<a>` carrying the
`breadcrumb__link` class. -/
def findSpanSibling : List (Option Tag) → Option String
  | [] => none
  | none :: rest => findSpanSibling rest
  | some t :: rest =>
    if t.name = "a" && t.classes.contains "breadcrumb__link" then some t.text
    else findSpanSibling rest

/-- Function `extract_region_name_from_html` (src/flashscore.py lines 52-95): try the
regex, then the span-sibling walk, then any breadcrumb anchor with non-empty
stripped text, then a configured root URL occurring in the raw markup, and
finally the sentinel.  (The Python `try/except` around the body can only be
reached through the parser primitives, which this embedding models as total;
the embedded function is itself total, so no exception escapes.) -/
def extract_region_name_from_html (soup : Soup) : String :=
  match regexCapture soup.html with
  | some cap => sanitize_folder_name (pyStrip cap)
  | none =>
    match findSpanSibling soup.spanSiblings with
    | some txt => sanitize_folder_name (pyStrip txt)
    | none =>
      match soup.breadcrumbLinks.find? (fun b => pyStrip b != "") with
      | some b => sanitize_folder_name (pyStrip b)
      | none =>
        match base_urls.find? (fun v => isSubstr v.data soup.html.data) with
        | some u =>
          sanitize_folder_name (pyTitle (pyReplaceChar '-' ' ' (lastSegment u)))
        | none => "Unknown-Region"

/-! ### Process state

The script's mutable state: the global `stats` dict (src lines 16-22), the
filesystem under `./output`, and the console.  `regionsImages` and
`regionsTournaments` embed the `defaultdict` `stats["regions"]` as
association lists with default value `0`. -/

/-- The global `stats` dictionary (src lines 16-22). -/
structure Stats where
  downloaded : Nat
  skipped_not_png : Nat
  error : Nat
  regionsImages : List (String × Nat)
  regionsTournaments : List (String × Nat)
  current_region : Option String
deriving DecidableEq

/-- The world the script mutates: statistics, the set of directories and of
files (with contents) that exist, and the lines printed so far. -/
structure World where
  stats : Stats
  dirs : List String
  files : List (String × String)
  output : List String
deriving DecidableEq

deriving instance DecidableEq for Except

/-- The state at interpreter start: empty stats, empty filesystem, no output. -/
def initWorld : World :=
  { stats := { downloaded := 0, skipped_not_png := 0, error := 0,
               regionsImages := [], regionsTournaments := [],
               current_region := none },
    dirs := [], files := [], output := [] }

/-- Increment of a region counter on the association-list embedding of the
`defaultdict` (missing key counts as `0`). -/
def bumpRegion : List (String × Nat) → String → List (String × Nat)
  | [], k => [(k, 1)]
  | (k', v) :: rest, k =>
    if k' = k then (k', v + 1) :: rest else (k', v) :: bumpRegion rest k

/-- Assignment of a region counter on the association-list embedding. -/
def setRegion : List (String × Nat) → String → Nat → List (String × Nat)
  | [], k, n => [(k, n)]
  | (k', v) :: rest, k, n =>
    if k' = k then (k', n) :: rest else (k', v) :: setRegion rest k n

/-- Read a `defaultdict` counter: missing key is `0`. -/
def lookupRegion (l : List (String × Nat)) (k : String) : Nat :=
  match l.find? (fun p => p.1 == k) with
  | some p => p.2
  | none => 0

/-- Embedding of `os.path.exists`: true when a directory or a file exists at the path. -/
def pathExists (w : World) (p : String) : Bool :=
  w.dirs.contains p || (w.files.map Prod.fst).contains p

/-- Embedding of `os.makedirs` guarded by `os.path.exists` (src lines 112-113). -/
def ensureDir (w : World) (p : String) : World :=
  if pathExists w p then w else { w with dirs := w.dirs ++ [p] }

/-- Embedding of the update `skipped_not_png += 1` on `stats` (src line 102). -/
def incrSkipped (w : World) : World :=
  { w with stats := { w.stats with
      skipped_not_png := w.stats.skipped_not_png + 1 } }

/-- The filename derived from the display name (src lines 116-118):
`normalize_filename(img_name)`, with `'.png'` appended when missing. -/
def derivedName (img_name : String) : String :=
  if pyEndswith (normalize_filename img_name) ".png" then
    normalize_filename img_name
  else
    normalize_filename img_name ++ ".png"

/-- The full target path (src lines 109, 121):
`os.path.join(os.path.join(OUTPUT_DIR, region_folder), derivedName)`. -/
def derivedPath (region_folder img_name : String) : String :=
  osPathJoin (osPathJoin OUTPUT_DIR region_folder) (derivedName img_name)

/-- The successful-download update (src lines 132-141): write the file,
bump `downloaded` and the region's image counter, print the progress line. -/
def writeSuccess (w : World) (img_path body region_folder img_name : String) :
    World :=
  { w with
    files := w.files ++ [(img_path, body)],
    stats := { w.stats with
      downloaded := w.stats.downloaded + 1,
      regionsImages := bumpRegion w.stats.regionsImages region_folder },
    output := w.output ++ ["+ " ++ img_name] }

/-- The `try`-body of `download_image` (src lines 99-142).  The network
oracle `fetch` models `requests.get` + `raise_for_status` + streaming: an
`Except.error` is a raised exception, whose message travels together with
the world at the raise point (directory creation already performed). -/
def download_image_body (fetch : String → Except String String)
    (img_url region_folder img_name : String) (w : World) :
    Except (String × World) (Bool × World) :=
  if is_png_image img_url then
    if pathExists (ensureDir w (osPathJoin OUTPUT_DIR region_folder))
        (derivedPath region_folder img_name) then
      Except.ok (false, ensureDir w (osPathJoin OUTPUT_DIR region_folder))
    else
      match fetch img_url with
      | Except.error e =>
        Except.error (e, ensureDir w (osPathJoin OUTPUT_DIR region_folder))
      | Except.ok body =>
        Except.ok (true,
          writeSuccess (ensureDir w (osPathJoin OUTPUT_DIR region_folder))
            (derivedPath region_folder img_name) body region_folder img_name)
  else
    Except.ok (false, incrSkipped w)

/-- Function `download_image` (src lines 97-147): the body wrapped in the
`try/except` that converts any raised exception into an error-counter
increment and a truncated diagnostic line. -/
def download_image (fetch : String → Except String String)
    (img_url region_folder img_name : String) (w : World) : Bool × World :=
  match download_image_body fetch img_url region_folder img_name w with
  | Except.ok r => r
  | Except.error (e, w1) =>
    (false,
      { w1 with
        stats := { w1.stats with error := w1.stats.error + 1 },
        output := w1.output ++
          ["! Error with " ++ img_name ++ ": " ++ truncate50 e ++ "..."] })

/-! ### Orchestrator -/

/-- What the script reads off a fetched page: the parsed document handed to
the region extractor, the `href` of each `a.leftMenu__href` link
(`none` when the attribute is missing), and the `(src, alt)` attribute pair
of each `img.heading__logo.heading__logo--1` element. -/
structure Page where
  soup : Soup
  tournamentHrefs : List (Option String)
  images : List (Option String × Option String)
deriving DecidableEq

/-- A harvested tournament descriptor (src lines 169-172). -/
structure Tournament where
  url : String
  region : String
deriving DecidableEq

/-- Function `scrape_tournament_pages` (src lines 149-182).  `fetchPage` models
`requests.get` + `raise_for_status` + `BeautifulSoup`; `urljoin` is the
library URL resolver, taken as a parameter.  A fetch failure is caught:
error counter increment, diagnostic line, empty list. -/
def scrape_tournament_pages (fetchPage : String → Except String Page)
    (urljoin : String → String → String) (base_url : String) (w : World) :
    List Tournament × World :=
  match fetchPage base_url with
  | Except.error e =>
    ([], { w with
           stats := { w.stats with error := w.stats.error + 1 },
           output := w.output ++ ["Error scraping " ++ base_url ++ ": " ++ e] })
  | Except.ok page =>
    let region_name := extract_region_name_from_html page.soup
    let tournaments := page.tournamentHrefs.filterMap (fun o =>
      match o with
      | some u =>
        if u = "" then none
        else some ({ url := urljoin base_url u, region := region_name } : Tournament)
      | none => none)
    (tournaments,
     { w with stats := { w.stats with
         current_region := some region_name,
         regionsTournaments :=
           setRegion w.stats.regionsTournaments region_name
             tournaments.length } })

/-- Function `scrape_images` (src lines 184-207): fetch the tournament page; on
failure, error counter + diagnostic; on success, call `download_image` for
each image element carrying both a non-empty `src` and a non-empty `alt`. -/
def scrape_images (fetchPage : String → Except String Page)
    (fetchAsset : String → Except String String)
    (urljoin : String → String → String) (t : Tournament) (w : World) :
    World :=
  match fetchPage t.url with
  | Except.error e =>
    { w with
      stats := { w.stats with error := w.stats.error + 1 },
      output := w.output ++
        ["Error processing tournament: " ++ truncate50 e ++ "..."] }
  | Except.ok page =>
    page.images.foldl (fun w pr =>
      match pr with
      | (some src, some alt) =>
        if src = "" || alt = "" then w
        else (download_image fetchAsset (urljoin t.url src) t.region alt w).2
      | _ => w) w

/-- One iteration of the per-root loop of `main` (src lines 217-230):
harvest the tournaments; if the list is empty, continue without printing;
otherwise print the region header and process each tournament in order. -/
def processRoot (fetchPage : String → Except String Page)
    (fetchAsset : String → Except String String)
    (urljoin : String → String → String) (base_url : String) (w : World) :
    World :=
  let r := scrape_tournament_pages fetchPage urljoin base_url w
  if r.1.isEmpty then r.2
  else
    let region_name := r.2.stats.current_region.getD "None"
    let w2 := { r.2 with output := r.2.output ++
      ["\n" ++ region_name ++ " (" ++
       toString (lookupRegion r.2.stats.regionsTournaments region_name) ++
       " tournaments)"] }
    r.1.foldl (fun w t => scrape_images fetchPage fetchAsset urljoin t w) w2

/-- The per-root loop of `main` over a list of root URLs. -/
def mainLoop (fetchPage : String → Except String Page)
    (fetchAsset : String → Except String String)
    (urljoin : String → String → String) : List String → World → World
  | [], w => w
  | u :: rest, w =>
    mainLoop fetchPage fetchAsset urljoin rest
      (processRoot fetchPage fetchAsset urljoin u w)

/-- Function `main` (src lines 209-239): create the output directory, print the
banner, run the per-root loop over `base_urls`, print the summary. -/
def main (fetchPage : String → Except String Page)
    (fetchAsset : String → Except String String)
    (urljoin : String → String → String) (w : World) : World :=
  let w1 := ensureDir w OUTPUT_DIR
  let w2 := { w1 with output := w1.output ++ ["Flashscore..."] }
  let w3 := mainLoop fetchPage fetchAsset urljoin base_urls w2
  { w3 with output := w3.output ++
    ["\nTotal: " ++ toString w3.stats.downloaded ++ " done, " ++
     toString w3.stats.skipped_not_png ++ " skip, " ++
     toString w3.stats.error ++ " error", "\nComplete!"] }

/-! ### Spec-side definitions (for refinement comparisons only)

These two definitions follow the wording of the specification, not the
source; each theorem comparing them with the source-derived definitions is a
refinement check. -/

/-- Modelled from the spec: `normalizeFileName(input)` "lowercases input,
collapses any run of whitespace to a single hyphen". -/
def normalizeFileName_spec (s : String) : String :=
  String.mk (collapseWs false (s.data.map Char.toLower))

/-- Drop everything up to and including the first `"://"` (helper for the
spec-side notion of a URL's path). -/
def dropScheme : List Char → List Char
  | [] => []
  | c :: t =>
    match dropLit "://".data (c :: t) with
    | some r => r
    | none => dropScheme t

/-- Modelled from the spec: the "URL's path" of §4.2 — the component after
the scheme and authority, up to but excluding any query or fragment. -/
def urlPathSpec (url : String) : String :=
  String.mk (((dropScheme url.data).dropWhile (fun c => c ≠ '/')).takeWhile
    (fun c => c ≠ '?' && c ≠ '#'))

/-! ### Helper lemmas -/

theorem char_toNat_ofNat (n : Nat) (h : n < 55296) : (Char.ofNat n).toNat = n := by
  have hv : n.isValidChar := Or.inl h
  simp [Char.ofNat, hv, Char.ofNatAux, Char.toNat, UInt32.toNat]

theorem toLower_eq (c : Char) :
    Char.toLower c =
      if c.toNat ≥ 65 ∧ c.toNat ≤ 90 then Char.ofNat (c.toNat + 32) else c := rfl

theorem toLower_toLower (c : Char) :
    Char.toLower (Char.toLower c) = Char.toLower c := by
  rw [toLower_eq c]
  by_cases h : c.toNat ≥ 65 ∧ c.toNat ≤ 90
  · rw [if_pos h, toLower_eq, char_toNat_ofNat _ (by omega), if_neg (by omega)]
  · rw [if_neg h, toLower_eq, if_neg h]

theorem map_id_of_fixed {f : Char → Char} :
    ∀ l : List Char, (∀ c ∈ l, f c = c) → l.map f = l := by
  intro l h
  induction l with
  | nil => rfl
  | cons c t ih =>
    simp only [List.map_cons]
    rw [h c (by simp), ih (fun d hd => h d (by simp [hd]))]

theorem collapseWs_cons_space (b : Bool) (d : Char) (t : List Char)
    (hd : pyIsSpace d = true) :
    collapseWs b (d :: t) =
      if b then collapseWs true t else '-' :: collapseWs true t := by
  conv_lhs => unfold collapseWs
  rw [if_pos hd]

theorem collapseWs_cons_nonspace (b : Bool) (d : Char) (t : List Char)
    (hd : pyIsSpace d = false) :
    collapseWs b (d :: t) = d :: collapseWs false t := by
  conv_lhs => unfold collapseWs
  rw [if_neg (by simp [hd])]

theorem mem_collapseWs {c : Char} :
    ∀ (b : Bool) (l : List Char), c ∈ collapseWs b l →
      c = '-' ∨ (c ∈ l ∧ pyIsSpace c = false) := by
  intro b l
  induction l generalizing b with
  | nil => simp [collapseWs]
  | cons d t ih =>
    intro hmem
    by_cases hd : pyIsSpace d = true
    · rw [collapseWs_cons_space b d t hd] at hmem
      have step : c ∈ collapseWs true t ∨ c = '-' := by
        cases b with
        | true => exact Or.inl (by simpa using hmem)
        | false =>
          rcases (List.mem_cons).1 (by simpa using hmem) with h | h
          · exact Or.inr h
          · exact Or.inl h
      rcases step with h | h
      · rcases ih true h with h2 | ⟨h2, h3⟩
        · exact Or.inl h2
        · exact Or.inr ⟨List.mem_cons_of_mem d h2, h3⟩
      · exact Or.inl h
    · rw [collapseWs_cons_nonspace b d t (by simpa using hd)] at hmem
      rcases (List.mem_cons).1 hmem with h | h
      · subst h
        exact Or.inr ⟨List.mem_cons_self c t, by simpa using hd⟩
      · rcases ih false h with h2 | ⟨h2, h3⟩
        · exact Or.inl h2
        · exact Or.inr ⟨List.mem_cons_of_mem d h2, h3⟩

theorem collapseWs_id :
    ∀ (b : Bool) (l : List Char), (∀ c ∈ l, pyIsSpace c = false) →
      collapseWs b l = l := by
  intro b l
  induction l generalizing b with
  | nil => intro _; rfl
  | cons d t ih =>
    intro h
    have hd : pyIsSpace d = false := h d (List.mem_cons_self d t)
    rw [collapseWs_cons_nonspace b d t hd,
        ih false (fun c hc => h c (List.mem_cons_of_mem d hc))]

theorem string_mk_data (s : String) : String.mk s.data = s := rfl

theorem sanitizeChar_idem (c : Char) :
    (if isForbidden (if isForbidden c then '-' else c) then '-'
     else if isForbidden c then '-' else c) =
      if isForbidden c then '-' else c := by
  by_cases h : isForbidden c = true
  · simp [h]
  · simp only [h]
    simp only [Bool.not_eq_true] at h
    simp [h]

theorem sanitize_idem (s : String) :
    sanitize_folder_name (sanitize_folder_name s) = sanitize_folder_name s := by
  unfold sanitize_folder_name
  rw [List.map_map]
  congr 1
  apply List.map_congr_left
  intro c _
  exact sanitizeChar_idem c

theorem collapseWs_not_space {c : Char} {b : Bool} {l : List Char}
    (h : c ∈ collapseWs b l) : pyIsSpace c = false := by
  rcases mem_collapseWs b l h with h2 | ⟨_, h2⟩
  · subst h2; rfl
  · exact h2

theorem normalize_filename_eq_spec (s : String) :
    normalize_filename s = normalizeFileName_spec s := by
  unfold normalize_filename normalizeFileName_spec
  congr 1
  apply map_id_of_fixed
  intro c hc
  have hns : pyIsSpace c = false := collapseWs_not_space hc
  unfold subSpaceChar
  rw [if_neg]
  intro h
  subst h
  simp [pyIsSpace] at hns

theorem mem_normalize_filename {c : Char} {s : String}
    (h : c ∈ (normalize_filename s).data) :
    Char.toLower c = c ∧ pyIsSpace c = false := by
  rw [normalize_filename_eq_spec] at h
  unfold normalizeFileName_spec at h
  have hns : pyIsSpace c = false := collapseWs_not_space h
  refine ⟨?_, hns⟩
  rcases mem_collapseWs false _ h with h2 | ⟨h2, _⟩
  · subst h2; rfl
  · rcases List.mem_map.1 h2 with ⟨d, _, hd⟩
    rw [← hd]
    exact toLower_toLower d

/-! world-update bookkeeping -/

theorem ensureDir_stats (w : World) (p : String) :
    (ensureDir w p).stats = w.stats := by
  unfold ensureDir; split <;> rfl

theorem ensureDir_files (w : World) (p : String) :
    (ensureDir w p).files = w.files := by
  unfold ensureDir; split <;> rfl

theorem ensureDir_output (w : World) (p : String) :
    (ensureDir w p).output = w.output := by
  unfold ensureDir; split <;> rfl

theorem contains_append_strings (l1 l2 : List String) (a : String) :
    ((l1 ++ l2).contains a = true) ↔
      (l1.contains a = true ∨ l2.contains a = true) := by
  simp [List.contains, List.elem_iff, List.mem_append]

theorem pathExists_of_file {w : World} {p : String}
    (h : (w.files.map Prod.fst).contains p = true) :
    pathExists w p = true := by
  unfold pathExists
  rw [h, Bool.or_true]

theorem pathExists_ensureDir_self (w : World) (p : String) :
    pathExists (ensureDir w p) p = true := by
  unfold ensureDir
  by_cases h : pathExists w p = true
  · rw [if_pos h]; exact h
  · rw [if_neg h]
    unfold pathExists
    have : ((w.dirs ++ [p]).contains p = true) :=
      (contains_append_strings _ _ _).2 (Or.inr (by simp [List.contains, List.elem_iff]))
    simp only [this, Bool.true_or]

theorem ensureDir_of_exists {w : World} {p : String}
    (h : pathExists w p = true) : ensureDir w p = w := by
  unfold ensureDir
  rw [if_pos h]

theorem pathExists_writeSuccess (w : World) (ip b rf nm p : String)
    (h : pathExists w p = true) :
    pathExists (writeSuccess w ip b rf nm) p = true := by
  unfold pathExists at h ⊢
  unfold writeSuccess
  simp only []
  rcases Bool.or_eq_true_iff.1 h with h1 | h1
  · rw [h1, Bool.true_or]
  · have : ((w.files ++ [(ip, b)]).map Prod.fst).contains p = true := by
      rw [List.map_append]
      exact (contains_append_strings _ _ _).2 (Or.inl h1)
    rw [this, Bool.or_true]

theorem pathExists_writeSuccess_path (w : World) (ip b rf nm : String) :
    pathExists (writeSuccess w ip b rf nm) ip = true := by
  unfold pathExists writeSuccess
  simp only []
  have : ((w.files ++ [(ip, b)]).map Prod.fst).contains ip = true := by
    rw [List.map_append]
    exact (contains_append_strings _ _ _).2
      (Or.inr (by simp [List.contains, List.elem_iff]))
  rw [this, Bool.or_true]

/-! ## Claims -/

/-- C9: `sanitize_folder_name` replaces each occurrence of the nine
characters `\ / : * ? " < > |` with a hyphen and leaves every other
character unchanged (including case, whitespace, accented letters and
parentheses); in particular `sanitize_folder_name "A/B:C*D" = "A-B-C-D"`.
Stated as: both cited examples, length preservation, the pointwise
characterisation, and identity on strings free of forbidden characters. -/
theorem C9_sanitize_folder_name :
    sanitize_folder_name "A/B:C*D" = "A-B-C-D"
    ∧ sanitize_folder_name "Café (West)" = "Café (West)"
    ∧ (∀ s : String, (sanitize_folder_name s).data.length = s.data.length)
    ∧ (∀ (s : String) (i : Nat),
        (sanitize_folder_name s).data[i]? =
          (s.data[i]?).map (fun c => if isForbidden c then '-' else c))
    ∧ (∀ s : String, (∀ c ∈ s.data, isForbidden c = false) →
        sanitize_folder_name s = s) := by
  refine ⟨by decide, by decide, ?_, ?_, ?_⟩
  · intro s; unfold sanitize_folder_name; simp
  · intro s i; unfold sanitize_folder_name; simp [List.getElem?_map]
  · intro s h
    have hfix : ∀ c ∈ s.data, (if isForbidden c then '-' else c) = c :=
      fun c hc => by rw [if_neg (by simp [h c hc])]
    unfold sanitize_folder_name
    rw [map_id_of_fixed s.data hfix]

/-- C9 witness: the identity part of C9 applied at the clean string "abc". -/
theorem C9_witness : sanitize_folder_name "abc" = "abc" :=
  C9_sanitize_folder_name.2.2.2.2 "abc" (by decide)

/-- C3 counterexample: the claimed example
`normalize_filename "  Multi   Space " = "multi-space"` is false on the
code: the leading and trailing whitespace runs are each replaced by a
hyphen (`re.sub(r'\s+', '-', ...)` replaces boundary runs too), so the
result is `"-multi-space-"`. -/
theorem C3_counterexample :
    normalize_filename "  Multi   Space " = "-multi-space-"
    ∧ normalize_filename "  Multi   Space " ≠ "multi-space" := by decide

/-- C3 (amended): `normalize_filename` lowercases the input and collapses
every maximal whitespace run — leading and trailing runs included — to a
single hyphen, sanitizing no other character class; consequently
`normalize_filename "Group A Stage" = "group-a-stage"` and
`normalize_filename "  Multi   Space " = "-multi-space-"` (not
`"multi-space"`). -/
theorem C3_normalize_filename :
    (∀ s : String, normalize_filename s = normalizeFileName_spec s)
    ∧ normalize_filename "Group A Stage" = "group-a-stage"
    ∧ normalize_filename "  Multi   Space " = "-multi-space-" :=
  ⟨normalize_filename_eq_spec, by decide, by decide⟩

/-- C3 witness: the universal part of C3 applied at "A B". -/
theorem C3_witness : normalize_filename "A B" = normalizeFileName_spec "A B" :=
  C3_normalize_filename.1 "A B"

/-- C10: `normalize_filename` is idempotent, because its output contains no
uppercase letters and no whitespace. -/
theorem C10_normalize_idem (s : String) :
    normalize_filename (normalize_filename s) = normalize_filename s := by
  calc normalize_filename (normalize_filename s)
      = normalizeFileName_spec (normalize_filename s) :=
        normalize_filename_eq_spec _
    _ = String.mk (collapseWs false
          ((normalize_filename s).data.map Char.toLower)) := rfl
    _ = String.mk (collapseWs false (normalize_filename s).data) := by
        rw [map_id_of_fixed _ (fun c hc => (mem_normalize_filename hc).1)]
    _ = String.mk (normalize_filename s).data := by
        rw [collapseWs_id false _ (fun c hc => (mem_normalize_filename hc).2)]
    _ = normalize_filename s := string_mk_data _

/-- C10 witness: idempotence applied at "A  B". -/
theorem C10_witness :
    normalize_filename (normalize_filename "A  B") = normalize_filename "A  B" :=
  C10_normalize_idem "A  B"

/-- C5 counterexample: the claimed equivalence "true iff the URL's *path*
ends with `.png`" is false on the code: for
`"http://x/y/logo.png?v=1"` the URL's path (`"/y/logo.png"`, per the
spec-side `urlPathSpec`) does end with `.png`, yet `is_png_image` — which
tests the whole URL string — returns `false`. -/
theorem C5_counterexample :
    is_png_image "http://x/y/logo.png?v=1" = false
    ∧ pyEndswith (pyLower (urlPathSpec "http://x/y/logo.png?v=1")) ".png" = true := by
  decide

/-- C5 (amended): `is_png_image url` is true iff the *entire URL string*,
lowercased, ends with `.png` (query string and fragment included in the
comparison, so the check is not on the URL's path component); the two cited
examples hold, and the function is pure. -/
theorem C5_is_png_image :
    (∀ url : String, is_png_image url = true ↔
      ∃ p : List Char, (pyLower url).data = p ++ ".png".data)
    ∧ is_png_image "http://x/y/logo.PNG" = true
    ∧ is_png_image "http://x/y/logo.svg" = false := by
  refine ⟨?_, by decide, by decide⟩
  intro url
  unfold is_png_image pyEndswith
  rw [List.isSuffixOf_iff_suffix]
  constructor
  · rintro ⟨t, ht⟩; exact ⟨t, ht.symm⟩
  · rintro ⟨p, hp⟩; exact ⟨p, hp.symm⟩

/-- C5 witness: the iff of C5 applied at "z.PNG". -/
theorem C5_witness : is_png_image "z.PNG" = true :=
  (C5_is_png_image.1 "z.PNG").mpr ⟨"z".data, by decide⟩

/-- C2: the extractor's strategies are tried in a fixed order with the
first success winning: (1) when the regex matches — also in the presence of
a generic breadcrumb anchor — its capture (stripped and sanitized) is
returned; (2) when no breadcrumb strategy succeeds but a configured root
URL occurs verbatim in the markup, the name derived from that URL's final
path segment (hyphens to spaces, title-cased, sanitized) is returned;
(3) when every strategy fails, `"Unknown-Region"` is returned. -/
theorem C2_strategy_order (soup : Soup) :
    (∀ cap : String, regexCapture soup.html = some cap →
      soup.breadcrumbLinks ≠ [] →
      extract_region_name_from_html soup = sanitize_folder_name (pyStrip cap))
    ∧ (∀ u : String,
        regexCapture soup.html = none →
        findSpanSibling soup.spanSiblings = none →
        soup.breadcrumbLinks.find? (fun b => pyStrip b != "") = none →
        base_urls.find? (fun v => isSubstr v.data soup.html.data) = some u →
        extract_region_name_from_html soup =
          sanitize_folder_name (pyTitle (pyReplaceChar '-' ' ' (lastSegment u))))
    ∧ (regexCapture soup.html = none →
        findSpanSibling soup.spanSiblings = none →
        soup.breadcrumbLinks.find? (fun b => pyStrip b != "") = none →
        base_urls.find? (fun v => isSubstr v.data soup.html.data) = none →
        extract_region_name_from_html soup = "Unknown-Region") := by
  refine ⟨?_, ?_, ?_⟩
  · intro cap h1 _
    simp only [extract_region_name_from_html, h1]
  · intro u h1 h2 h3 h4
    simp only [extract_region_name_from_html, h1, h2, h3, h4]
  · intro h1 h2 h3 h4
    simp only [extract_region_name_from_html, h1, h2, h3, h4]

/-- C2 witness: the three scenarios at concrete documents — a page whose
markup matches the regex while also holding a generic breadcrumb anchor, a
page containing only the configured Asia root URL, and a page matching
nothing. -/
theorem C2_witness :
    extract_region_name_from_html
        ⟨"</span><a class=\"breadcrumb__link\" href=\"h\">Asia</a>", [],
         ["Africa"]⟩ = sanitize_folder_name (pyStrip "Asia")
    ∧ extract_region_name_from_html
        ⟨"https://www.flashscore.com/football/asia", [], []⟩ =
        sanitize_folder_name (pyTitle (pyReplaceChar '-' ' '
          (lastSegment "https://www.flashscore.com/football/asia")))
    ∧ extract_region_name_from_html ⟨"x", [], []⟩ = "Unknown-Region" :=
  ⟨(C2_strategy_order _).1 "Asia" (by decide) (by decide),
   (C2_strategy_order _).2.1 _ (by decide) (by decide) (by decide) (by decide),
   (C2_strategy_order _).2.2 (by decide) (by decide) (by decide) (by decide)⟩

/-- C4 counterexample: the "never empty" part of the claim is false on the
code: a document whose breadcrumb anchor text is a single space makes the
regex capture `" "`, which `strip()` reduces to the empty string, so the
extractor returns `""`, not a non-empty string. -/
theorem C4_counterexample :
    extract_region_name_from_html
      ⟨"</span><a class=\"breadcrumb__link\" href=\"h\"> </a>", [], []⟩ = "" := by
  decide

/-- C4 (amended): every value `extract_region_name_from_html` returns is
folder-sanitized (a fixpoint of `sanitize_folder_name`, every captured
candidate having been passed through it), and when all strategies fail it
returns the literal sentinel `"Unknown-Region"`; being a total function, it
propagates no exception.  The result is however not always non-empty: a
captured candidate whose stripped text is empty yields `""`. -/
theorem C4_sanitized_output :
    (∀ soup : Soup,
      sanitize_folder_name (extract_region_name_from_html soup) =
        extract_region_name_from_html soup)
    ∧ (∀ soup : Soup,
        regexCapture soup.html = none →
        findSpanSibling soup.spanSiblings = none →
        soup.breadcrumbLinks.find? (fun b => pyStrip b != "") = none →
        base_urls.find? (fun v => isSubstr v.data soup.html.data) = none →
        extract_region_name_from_html soup = "Unknown-Region") := by
  constructor
  · intro soup
    unfold extract_region_name_from_html
    split
    · exact sanitize_idem _
    · split
      · exact sanitize_idem _
      · split
        · exact sanitize_idem _
        · split
          · exact sanitize_idem _
          · decide
  · intro soup h1 h2 h3 h4
    simp only [extract_region_name_from_html, h1, h2, h3, h4]

/-- C4 witness: both parts of C4 at the concrete document "y". -/
theorem C4_witness :
    sanitize_folder_name (extract_region_name_from_html ⟨"y", [], []⟩) =
      extract_region_name_from_html ⟨"y", [], []⟩
    ∧ extract_region_name_from_html ⟨"y", [], []⟩ = "Unknown-Region" :=
  ⟨C4_sanitized_output.1 _,
   C4_sanitized_output.2 _ (by decide) rfl rfl (by decide)⟩

/-- C6: for every URL for which `is_png_image` is false, `download_image`
increments `skipped_not_png` by exactly one and returns `False`
immediately: the resulting world differs from the input world only in that
counter (no directory, file, output or other counter change), and the
result does not depend on the network oracle (no network call). -/
theorem C6_skip_not_png (fetch fetch' : String → Except String String)
    (img_url region_folder img_name : String) (w : World)
    (h : is_png_image img_url = false) :
    download_image fetch img_url region_folder img_name w =
      (false, { w with stats := { w.stats with
        skipped_not_png := w.stats.skipped_not_png + 1 } })
    ∧ download_image fetch img_url region_folder img_name w =
        download_image fetch' img_url region_folder img_name w := by
  have key : ∀ f : String → Except String String,
      download_image f img_url region_folder img_name w =
        (false, incrSkipped w) := by
    intro f
    unfold download_image download_image_body
    rw [if_neg (by simp [h])]
  exact ⟨by rw [key fetch]; rfl, by rw [key fetch, key fetch']⟩

/-- C6 witness: the skip behaviour at the concrete ineligible URL
"http://a/x.svg". -/
theorem C6_witness :
    download_image (fun _ => Except.ok "B") "http://a/x.svg" "R" "N" initWorld =
      (false, { initWorld with stats := { initWorld.stats with
        skipped_not_png := initWorld.stats.skipped_not_png + 1 } }) :=
  (C6_skip_not_png (fun _ => Except.ok "B") (fun _ => Except.error "e")
    "http://a/x.svg" "R" "N" initWorld (by decide)).1

/-- C7: every exception raised inside `download_image`'s body (the network
oracle's `error` result models network failure and non-2xx status via
`raise_for_status`) is caught at the function boundary — the embedded
`download_image` is total and returns normally — and such a failure leaves
every other counter, the files and the prior output unchanged, increments
the `error` counter by exactly one, and emits a single diagnostic line
whose error message is truncated to 50 characters. -/
theorem C7_exception_boundary (fetch : String → Except String String)
    (img_url region_folder img_name : String) (w : World) (e : String)
    (w1 : World)
    (h : download_image_body fetch img_url region_folder img_name w =
      Except.error (e, w1)) :
    w1.stats = w.stats ∧ w1.files = w.files ∧ w1.output = w.output
    ∧ download_image fetch img_url region_folder img_name w =
      (false, { w1 with
        stats := { w1.stats with error := w1.stats.error + 1 },
        output := w1.output ++
          ["! Error with " ++ img_name ++ ": " ++ truncate50 e ++ "..."] }) := by
  have h2 : w1 = ensureDir w (osPathJoin OUTPUT_DIR region_folder) := by
    unfold download_image_body at h
    by_cases hp : is_png_image img_url = true
    · rw [if_pos hp] at h
      by_cases hex : pathExists (ensureDir w (osPathJoin OUTPUT_DIR region_folder))
          (derivedPath region_folder img_name) = true
      · rw [if_pos hex] at h; simp at h
      · rw [if_neg hex] at h
        cases hf : fetch img_url with
        | error e2 =>
          rw [hf] at h
          simp only [Except.error.injEq, Prod.mk.injEq] at h
          exact h.2.symm
        | ok body => rw [hf] at h; simp at h
    · rw [if_neg hp] at h; simp at h
  subst h2
  refine ⟨ensureDir_stats _ _, ensureDir_files _ _, ensureDir_output _ _, ?_⟩
  unfold download_image
  rw [h]

/-- C7 witness: a concrete failed download (network oracle raising "boom")
from the initial world: error counter 1, one truncated diagnostic line,
directory created but no file written. -/
theorem C7_witness :
    download_image (fun _ => Except.error "boom") "http://a/b.png" "R" "N"
        initWorld =
      (false,
       { stats := { downloaded := 0, skipped_not_png := 0, error := 1,
                    regionsImages := [], regionsTournaments := [],
                    current_region := none },
         dirs := ["./output/R"], files := [],
         output := ["! Error with N: boom..."] }) :=
  (C7_exception_boundary (fun _ => Except.error "boom") "http://a/b.png" "R" "N"
    initWorld "boom" { initWorld with dirs := ["./output/R"] } (by decide)).2.2.2

/-- C1: for any (region folder, display name) pair whose derived target
path already exists on disk (for an eligible `.png` URL, so that the
existence check is reached), `download_image` returns `False` without
writing any file, without changing any counter (`downloaded`,
`skipped_not_png`, `error`, per-region counts), without printing, and
without performing any network request (the result does not depend on the
network oracle); and a second call with the same derived path after a
successful download is a no-op returning `False` and leaving the world
as it was. -/
theorem C1_dedup (fetch fetch' : String → Except String String)
    (img_url region_folder img_name : String) (w : World) :
    (is_png_image img_url = true →
      (w.files.map Prod.fst).contains (derivedPath region_folder img_name) = true →
      ((download_image fetch img_url region_folder img_name w).1 = false
       ∧ (download_image fetch img_url region_folder img_name w).2.files = w.files
       ∧ (download_image fetch img_url region_folder img_name w).2.stats = w.stats
       ∧ (download_image fetch img_url region_folder img_name w).2.output = w.output
       ∧ download_image fetch img_url region_folder img_name w =
           download_image fetch' img_url region_folder img_name w))
    ∧ ((download_image fetch img_url region_folder img_name w).1 = true →
        download_image fetch' img_url region_folder img_name
          (download_image fetch img_url region_folder img_name w).2 =
          (false, (download_image fetch img_url region_folder img_name w).2)) := by
  constructor
  · intro hp hex
    have hpe : pathExists (ensureDir w (osPathJoin OUTPUT_DIR region_folder))
        (derivedPath region_folder img_name) = true := by
      apply pathExists_of_file
      rw [ensureDir_files]
      exact hex
    have key : ∀ f : String → Except String String,
        download_image f img_url region_folder img_name w =
          (false, ensureDir w (osPathJoin OUTPUT_DIR region_folder)) := by
      intro f
      unfold download_image download_image_body
      rw [if_pos hp, if_pos hpe]
    rw [key fetch, key fetch']
    exact ⟨rfl, ensureDir_files _ _, ensureDir_stats _ _, ensureDir_output _ _, rfl⟩
  · intro hsucc
    by_cases hp : is_png_image img_url = true
    · by_cases hex : pathExists (ensureDir w (osPathJoin OUTPUT_DIR region_folder))
          (derivedPath region_folder img_name) = true
      · exfalso
        have : download_image fetch img_url region_folder img_name w =
            (false, ensureDir w (osPathJoin OUTPUT_DIR region_folder)) := by
          unfold download_image download_image_body
          rw [if_pos hp, if_pos hex]
        rw [this] at hsucc
        simp at hsucc
      · cases hf : fetch img_url with
        | error e =>
          exfalso
          have : download_image fetch img_url region_folder img_name w =
              (false, { (ensureDir w (osPathJoin OUTPUT_DIR region_folder)) with
                stats := { (ensureDir w (osPathJoin OUTPUT_DIR region_folder)).stats with
                  error := (ensureDir w (osPathJoin OUTPUT_DIR region_folder)).stats.error + 1 },
                output := (ensureDir w (osPathJoin OUTPUT_DIR region_folder)).output ++
                  ["! Error with " ++ img_name ++ ": " ++ truncate50 e ++ "..."] }) := by
            unfold download_image download_image_body
            rw [if_pos hp, if_neg hex, hf]
          rw [this] at hsucc
          simp at hsucc
        | ok body =>
          have hres : download_image fetch img_url region_folder img_name w =
              (true, writeSuccess (ensureDir w (osPathJoin OUTPUT_DIR region_folder))
                (derivedPath region_folder img_name) body region_folder img_name) := by
            unfold download_image download_image_body
            rw [if_pos hp, if_neg hex, hf]
          rw [hres]
          have hdir2 : pathExists
              (writeSuccess (ensureDir w (osPathJoin OUTPUT_DIR region_folder))
                (derivedPath region_folder img_name) body region_folder img_name)
              (osPathJoin OUTPUT_DIR region_folder) = true :=
            pathExists_writeSuccess _ _ _ _ _ _ (pathExists_ensureDir_self w _)
          have hed : ensureDir
              (writeSuccess (ensureDir w (osPathJoin OUTPUT_DIR region_folder))
                (derivedPath region_folder img_name) body region_folder img_name)
              (osPathJoin OUTPUT_DIR region_folder) =
              writeSuccess (ensureDir w (osPathJoin OUTPUT_DIR region_folder))
                (derivedPath region_folder img_name) body region_folder img_name :=
            ensureDir_of_exists hdir2
          have hex2 : pathExists
              (ensureDir (writeSuccess (ensureDir w (osPathJoin OUTPUT_DIR region_folder))
                (derivedPath region_folder img_name) body region_folder img_name)
                (osPathJoin OUTPUT_DIR region_folder))
              (derivedPath region_folder img_name) = true := by
            rw [hed]
            exact pathExists_writeSuccess_path _ _ _ _ _
          unfold download_image download_image_body
          rw [if_pos hp, if_pos hex2, hed]
    · exfalso
      have : download_image fetch img_url region_folder img_name w =
          (false, incrSkipped w) := by
        unfold download_image download_image_body
        rw [if_neg hp]
      rw [this] at hsucc
      simp at hsucc

/-- C1 witness: part one at a world already holding the derived file
"./output/R/n.png" (no state change, no oracle dependence), and part two as
a no-op second call after a successful first download from the initial
world. -/
theorem C1_witness :
    ((download_image (fun _ => Except.ok "A") "http://a/n.png" "R" "N"
        { initWorld with files := [("./output/R/n.png", "X")] }).1 = false
     ∧ (download_image (fun _ => Except.ok "A") "http://a/n.png" "R" "N"
          { initWorld with files := [("./output/R/n.png", "X")] }).2.files =
        ({ initWorld with files := [("./output/R/n.png", "X")] } : World).files
     ∧ (download_image (fun _ => Except.ok "A") "http://a/n.png" "R" "N"
          { initWorld with files := [("./output/R/n.png", "X")] }).2.stats =
        ({ initWorld with files := [("./output/R/n.png", "X")] } : World).stats
     ∧ (download_image (fun _ => Except.ok "A") "http://a/n.png" "R" "N"
          { initWorld with files := [("./output/R/n.png", "X")] }).2.output =
        ({ initWorld with files := [("./output/R/n.png", "X")] } : World).output
     ∧ download_image (fun _ => Except.ok "A") "http://a/n.png" "R" "N"
          { initWorld with files := [("./output/R/n.png", "X")] } =
        download_image (fun _ => Except.error "E") "http://a/n.png" "R" "N"
          { initWorld with files := [("./output/R/n.png", "X")] })
    ∧ download_image (fun _ => Except.error "E") "http://a/n.png" "R" "N"
        (download_image (fun _ => Except.ok "A") "http://a/n.png" "R" "N"
          initWorld).2 =
      (false, (download_image (fun _ => Except.ok "A") "http://a/n.png" "R" "N"
          initWorld).2) :=
  ⟨(C1_dedup (fun _ => Except.ok "A") (fun _ => Except.error "E") "http://a/n.png"
      "R" "N" { initWorld with files := [("./output/R/n.png", "X")] }).1
      (by decide) (by decide),
   (C1_dedup (fun _ => Except.ok "A") (fun _ => Except.error "E") "http://a/n.png"
      "R" "N" initWorld).2 (by decide)⟩

/-- C8: in the per-root loop, (1) a root whose harvested tournament list is
empty contributes nothing beyond the harvesting step itself — in particular
no region header line is printed; (2) a root whose fetch fails yields the
empty list together with exactly one error-counter increment and one
diagnostic line; (3) the loop always continues with the next root, so no
per-unit failure aborts the run. -/
theorem C8_root_loop (fetchPage : String → Except String Page)
    (fetchAsset : String → Except String String)
    (urljoin : String → String → String) (u : String) (rest : List String)
    (w : World) :
    ((scrape_tournament_pages fetchPage urljoin u w).1 = [] →
      processRoot fetchPage fetchAsset urljoin u w =
        (scrape_tournament_pages fetchPage urljoin u w).2)
    ∧ (∀ e, fetchPage u = Except.error e →
        scrape_tournament_pages fetchPage urljoin u w =
          ([], { w with
            stats := { w.stats with error := w.stats.error + 1 },
            output := w.output ++ ["Error scraping " ++ u ++ ": " ++ e] }))
    ∧ mainLoop fetchPage fetchAsset urljoin (u :: rest) w =
        mainLoop fetchPage fetchAsset urljoin rest
          (processRoot fetchPage fetchAsset urljoin u w) := by
  refine ⟨?_, ?_, ?_⟩
  · intro h
    simp [processRoot, h]
  · intro e he
    unfold scrape_tournament_pages
    rw [he]
  · rfl

/-- C8 witness: a root whose fetch fails ("down"): empty harvest, error
counter 1, one diagnostic line, no header, and the loop equation at that
root. -/
theorem C8_witness :
    (processRoot (fun _ => Except.error "down") (fun _ => Except.error "x")
        (fun a b => a ++ b) "https://root" initWorld =
      (scrape_tournament_pages (fun _ => Except.error "down")
        (fun a b => a ++ b) "https://root" initWorld).2)
    ∧ (scrape_tournament_pages (fun _ => Except.error "down")
        (fun a b => a ++ b) "https://root" initWorld =
      ([], { initWorld with
        stats := { initWorld.stats with error := initWorld.stats.error + 1 },
        output := initWorld.output ++
          ["Error scraping " ++ "https://root" ++ ": " ++ "down"] }))
    ∧ mainLoop (fun _ => Except.error "down") (fun _ => Except.error "x")
        (fun a b => a ++ b) ["https://root"] initWorld =
      mainLoop (fun _ => Except.error "down") (fun _ => Except.error "x")
        (fun a b => a ++ b) []
        (processRoot (fun _ => Except.error "down") (fun _ => Except.error "x")
          (fun a b => a ++ b) "https://root" initWorld) :=
  ⟨(C8_root_loop (fun _ => Except.error "down") (fun _ => Except.error "x")
      (fun a b => a ++ b) "https://root" [] initWorld).1 (by decide),
   (C8_root_loop (fun _ => Except.error "down") (fun _ => Except.error "x")
      (fun a b => a ++ b) "https://root" [] initWorld).2.1 "down" rfl,
   (C8_root_loop (fun _ => Except.error "down") (fun _ => Except.error "x")
      (fun a b => a ++ b) "https://root" [] initWorld).2.2⟩

end Flashscore
